import Mathlib

/-!
Verification development for the GrowUp client shell's PWA lifecycle core.

The embedded code is:
* `PwaInstallService` (projects/shell/src/app/core/services/pwa-install.service.ts):
  signals `_isInstalled`, `_canInstall`, the captured `deferredPrompt` handle, the
  `beforeinstallprompt` / `appinstalled` event handlers and `showInstallPrompt()`.
* `InstallBannerComponent` (install-banner.component.ts): the `showBanner` computed
  signal and `dismiss()`, together with the `localStorage` key it reads and writes.
* `PwaNotificationService` (projects/shell/src/app/core/services/pwa-notification.service.ts):
  `requestPermission()` and `subscribeToNotifications()`.

The embedding is single-threaded and event-driven, matching the browser model: each
event handler and each async method runs to its settlement atomically, with the
user's response to a native dialog supplied as data on the captured handle.
-/

namespace GrowUp

/-! ### PwaInstallService -/

/-- Outcome carried by the `userChoice` promise of a captured
`beforeinstallprompt` event: `'accepted'` or `'dismissed'`. -/
inductive UserChoice where
  | accepted
  | dismissed
  deriving DecidableEq, Repr

/-- A captured `beforeinstallprompt` event (the service's `deferredPrompt`).
`id` is an opaque identity; `choice` is the value its `userChoice` promise will
resolve to when `prompt()` is shown to the user. -/
structure DeferredPrompt where
  id : Nat
  choice : UserChoice
  deriving DecidableEq, Repr

/-- The mutable fields of `PwaInstallService`: the `_isInstalled` and
`_canInstall` signals and the `deferredPrompt` handle (`null` ↦ `none`). -/
structure InstallState where
  isInstalled : Bool
  canInstall : Bool
  deferredPrompt : Option DeferredPrompt
  deriving DecidableEq, Repr

/-- `checkIfInstalled()` run at construction: `_isInstalled.set(isStandalone || isIOS)`,
with `_canInstall` still at its initial `false` and no handle captured.
`isStandalone` is the display-mode media query, `iosStandalone` the
`navigator.standalone` check; an absent platform API degrades to `false`. -/
def initState (isStandalone iosStandalone : Bool) : InstallState :=
  { isInstalled := isStandalone || iosStandalone
    canInstall := false
    deferredPrompt := none }

/-- Result of one `showInstallPrompt()` call: the returned boolean, the service
state after the call, and the handle `prompt()` was invoked on, if any. -/
structure PromptResult where
  result : Bool
  state : InstallState
  promptedOn : Option DeferredPrompt
  deriving DecidableEq, Repr

/-- `showInstallPrompt()`: with no `deferredPrompt` it returns `false` at once
without calling `prompt()`; otherwise it calls `prompt()` on the handle, awaits
`userChoice`, clears `deferredPrompt` and `_canInstall`, and on `'accepted'`
also sets `_isInstalled` and returns `true`. -/
def showInstallPrompt (s : InstallState) : PromptResult :=
  match s.deferredPrompt with
  | none => { result := false, state := s, promptedOn := none }
  | some dp =>
      let s1 : InstallState :=
        { s with deferredPrompt := none, canInstall := false }
      match dp.choice with
      | .accepted =>
          { result := true
            state := { s1 with isInstalled := true }
            promptedOn := some dp }
      | .dismissed =>
          { result := false, state := s1, promptedOn := some dp }

/-- The lifecycle events the service reacts to after construction: a
`beforeinstallprompt` event carrying a handle, the `appinstalled` event, and a
`showInstallPrompt()` invocation run to settlement. -/
inductive InstallEvent where
  | beforeInstallPrompt (dp : DeferredPrompt)
  | appInstalled
  | showPrompt
  deriving DecidableEq, Repr

/-- One settled event: the `beforeinstallprompt` handler stores the handle and
sets `_canInstall`; the `appinstalled` handler sets `_isInstalled`, clears
`_canInstall` and drops the handle; `showPrompt` runs `showInstallPrompt`. -/
def step (s : InstallState) : InstallEvent → InstallState
  | .beforeInstallPrompt dp => { s with deferredPrompt := some dp, canInstall := true }
  | .appInstalled => { s with isInstalled := true, canInstall := false, deferredPrompt := none }
  | .showPrompt => (showInstallPrompt s).state

/-- Folding a sequence of settled events over a state. -/
def run (s : InstallState) (es : List InstallEvent) : InstallState :=
  es.foldl step s

/-! ### InstallBannerComponent and localStorage -/

/-- The durable client-side key-value store (`localStorage`): an association
list with at most one entry per key, as maintained by `setItem`. -/
abbrev Store := List (String × String)

/-- `localStorage.getItem(k)`: the value at the first entry for `k`, or `null`. -/
def getItem : Store → String → Option String
  | [], _ => none
  | p :: ps, k => if p.1 == k then some p.2 else getItem ps k

/-- `localStorage.setItem(k, v)`: replace the entry for `k`, or append one. -/
def setItem : Store → String → String → Store
  | [], k, v => [(k, v)]
  | p :: ps, k, v => if p.1 == k then (k, v) :: ps else p :: setItem ps k v

/-- The fixed dismissal key used by `InstallBannerComponent`. -/
def dismissedKey : String := "install-banner-dismissed"

/-- The component's `showBanner` computed signal: reads the persisted
dismissal flag (`getItem(...) === 'true'`) and the two service signals, and
returns `!isInstalled && canInstall && !dismissed`. -/
def showBanner (s : InstallState) (st : Store) : Bool :=
  let dismissed : Bool := getItem st dismissedKey == some "true"
  !s.isInstalled && s.canInstall && !dismissed

/-- The component's `dismiss()`: `localStorage.setItem('install-banner-dismissed', 'true')`. -/
def dismiss (st : Store) : Store :=
  setItem st dismissedKey "true"

/-- A store whose dismissal flag reads as `d`: empty when `d` is false, the
single persisted entry otherwise. -/
def storageOf (d : Bool) : Store :=
  if d then [(dismissedKey, "true")] else []

/-! ### PwaNotificationService -/

/-- Result of `Notification.requestPermission()`: `'granted'`, `'denied'` or
`'default'`. -/
inductive NotifPermission where
  | granted
  | denied
  | defaultPerm
  deriving DecidableEq, Repr

/-- An opaque push-subscription handle returned by `swPush.requestSubscription`. -/
structure PushSub where
  endpoint : String
  deriving DecidableEq, Repr

/-- The platform inputs a `subscribeToNotifications` call observes:
whether the `Notification` API exists on `window`, what
`Notification.requestPermission()` resolves to, whether `swPush.isEnabled`,
and what `swPush.requestSubscription` resolves to (or rejects with). -/
structure NotifEnv where
  notificationSupported : Bool
  permission : NotifPermission
  swPushEnabled : Bool
  subscriptionResult : Except String PushSub
  deriving Repr

/-- The spec's SubscriptionState slot for a retained push-subscription handle.
The `PwaNotificationService` class itself declares no mutable field besides the
injected `SwPush` reference, so the source methods never assign this slot; the
embedding threads it through so that claims about retained state are statable. -/
structure NotifState where
  subscription : Option PushSub
  deriving DecidableEq, Repr

/-- The observable actions `subscribeToNotifications` can perform, in order:
the console warnings/logs and the one transport call `swPush.requestSubscription`. -/
inductive NotifEffect where
  | warnDisabled
  | logUserRejected
  | subscribeCall (serverPublicKey : String)
  | logSuccess (sub : PushSub)
  | logError
  deriving DecidableEq, Repr

/-- `requestPermission()`: `false` when the `Notification` API is unsupported,
otherwise awaits `Notification.requestPermission()` and returns
`permission === 'granted'`. -/
def requestPermission (env : NotifEnv) : Bool :=
  if !env.notificationSupported then false
  else env.permission == .granted

/-- `subscribeToNotifications(vapidPublicKey)`: returns early when
`swPush.isEnabled` is false; otherwise awaits `requestPermission()` and aborts
when it is false; otherwise calls `swPush.requestSubscription` and logs the
resulting subscription, catching a rejection. The source binds the subscription
to a local `const` and only logs it (backend delivery is a TODO comment), so
every branch leaves the service state `st` unchanged. -/
def subscribeToNotifications (env : NotifEnv) (vapidPublicKey : String)
    (st : NotifState) : NotifState × List NotifEffect :=
  if !env.swPushEnabled then (st, [.warnDisabled])
  else if !(requestPermission env) then (st, [.logUserRejected])
  else
    match env.subscriptionResult with
    | .ok sub => (st, [.subscribeCall vapidPublicKey, .logSuccess sub])
    | .error _ => (st, [.subscribeCall vapidPublicKey, .logError])

/-- Whether an effect is the transport call `swPush.requestSubscription`. -/
def isSubscribeCall : NotifEffect → Bool
  | .subscribeCall _ => true
  | _ => false

/-! ### Invariant predicates -/

/-- The exclusion invariant: `isInstalled` and `canInstall` are not both true. -/
def noConflict (s : InstallState) : Bool :=
  !(s.isInstalled && s.canInstall)

/-- Platform admissibility of one event in state `s`: the browser delivers
`beforeinstallprompt` only while the app is not installed (the handler's own
comments record this platform precondition); other events are unconstrained. -/
def offerOk (s : InstallState) : InstallEvent → Bool
  | .beforeInstallPrompt _ => !s.isInstalled
  | _ => true

/-- A trace is platform-admissible from `s` when each `beforeinstallprompt`
event in it arrives while `isInstalled` is false at that point. -/
def admissibleB (s : InstallState) : List InstallEvent → Bool
  | [] => true
  | e :: es => offerOk s e && admissibleB (step s e) es

/-! ### Helper lemmas -/

/-- Reading back the key just written returns the written value. -/
theorem getItem_setItem_self (st : Store) (k v : String) :
    getItem (setItem st k v) k = some v := by
  induction st with
  | nil => simp [setItem, getItem]
  | cons p ps ih =>
      by_cases h : p.1 == k
      · simp [setItem, getItem, h]
      · simp [setItem, getItem, h, ih]

/-- Writing the same value under the same key twice equals writing it once. -/
theorem setItem_idem (st : Store) (k v : String) :
    setItem (setItem st k v) k v = setItem st k v := by
  induction st with
  | nil => simp [setItem]
  | cons p ps ih =>
      by_cases h : p.1 == k
      · simp [setItem, h]
      · simp [setItem, h, ih]

/-- After any `showInstallPrompt()` call the service holds no handle: the
no-handle branch leaves the absent handle absent, and the prompting branch
nulls `deferredPrompt` before resolving. -/
theorem showInstallPrompt_state_deferredPrompt (s : InstallState) :
    (showInstallPrompt s).state.deferredPrompt = none := by
  obtain ⟨i, c, d⟩ := s
  cases d with
  | none => rfl
  | some dp =>
      obtain ⟨n, ch⟩ := dp
      cases ch <;> rfl

/-- With no handle captured, `showInstallPrompt()` returns `false` at once,
mutates nothing, and never invokes `prompt()`. -/
theorem showInstallPrompt_none (s : InstallState) (h : s.deferredPrompt = none) :
    showInstallPrompt s = { result := false, state := s, promptedOn := none } := by
  obtain ⟨i, c, d⟩ := s
  cases d with
  | none => rfl
  | some dp => simp at h

/-- A trace containing no `beforeinstallprompt` event never recreates a handle. -/
theorem deferredPrompt_none_run (es : List InstallEvent) (s : InstallState)
    (hs : s.deferredPrompt = none)
    (h : ∀ dp, InstallEvent.beforeInstallPrompt dp ∉ es) :
    (run s es).deferredPrompt = none := by
  induction es generalizing s with
  | nil => simpa [run] using hs
  | cons e es ih =>
      have he : ∀ dp, InstallEvent.beforeInstallPrompt dp ∉ es := by
        intro dp hmem
        exact h dp (List.mem_cons_of_mem _ hmem)
      have hstep : (step s e).deferredPrompt = none := by
        cases e with
        | beforeInstallPrompt dp => exact absurd (List.mem_cons_self _ _) (h dp)
        | appInstalled => rfl
        | showPrompt => exact showInstallPrompt_state_deferredPrompt s
      simpa [run] using ih (step s e) hstep he

/-- One settled admissible event preserves the exclusion invariant. -/
theorem noConflict_step (s : InstallState) (e : InstallEvent)
    (h1 : noConflict s = true) (h2 : offerOk s e = true) :
    noConflict (step s e) = true := by
  obtain ⟨i, c, d⟩ := s
  cases e with
  | beforeInstallPrompt dp =>
      simp [offerOk] at h2
      simp [noConflict, step, h2]
  | appInstalled => simp [noConflict, step]
  | showPrompt =>
      cases d with
      | none => simpa [noConflict, step, showInstallPrompt] using h1
      | some dp =>
          obtain ⟨n, ch⟩ := dp
          cases ch <;> simp [noConflict, step, showInstallPrompt]

/-- A whole admissible trace preserves the exclusion invariant. -/
theorem noConflict_run_of_admissible (es : List InstallEvent) (s : InstallState)
    (h1 : noConflict s = true) (h2 : admissibleB s es = true) :
    noConflict (run s es) = true := by
  induction es generalizing s with
  | nil => simpa [run] using h1
  | cons e es ih =>
      simp [admissibleB, Bool.and_eq_true] at h2
      simpa [run] using ih (step s e) (noConflict_step s e h1 h2.1) h2.2

/-- Admissibility is closed under taking prefixes. -/
theorem admissibleB_take (n : Nat) (es : List InstallEvent) (s : InstallState)
    (h : admissibleB s es = true) : admissibleB s (es.take n) = true := by
  induction es generalizing s n with
  | nil => simp [admissibleB]
  | cons e es ih =>
      cases n with
      | zero => simp [admissibleB]
      | succ m =>
          simp [admissibleB, Bool.and_eq_true] at h ⊢
          exact ⟨h.1, ih m (step s e) h.2⟩

/-! ### Claim theorems -/

/-- Claim C1: the banner's `showBanner` predicate is true iff `isInstalled`
is false, `canInstall` is true and the persisted dismissed flag is false,
checked exhaustively over all 8 combinations of the three booleans. -/
theorem showBanner_truth_table :
    ∀ i c d : Bool,
      showBanner { isInstalled := i, canInstall := c, deferredPrompt := none }
        (storageOf d) = (!i && c && !d) := by
  decide

/-- Claim C2 fails as stated: over all sequences of lifecycle events the
exclusion does not hold — delivering a `beforeinstallprompt` event after
`appinstalled` leaves `isInstalled` and `canInstall` both true, because the
offer handler sets `_canInstall` without consulting `_isInstalled`. -/
theorem installed_offer_breaks_exclusion :
    noConflict (run (initState false false)
      [.appInstalled, .beforeInstallPrompt ⟨0, .dismissed⟩]) = false := by
  decide

/-- Claim C2 (amended): for every platform-admissible sequence of lifecycle
events — one in which each offer-available event is delivered only while
`isInstalled` is false, as the browser guarantees — `isInstalled` and
`canInstall` are never both true after each event settles. -/
theorem noConflict_of_admissible (a b : Bool) (es : List InstallEvent) (n : Nat)
    (h : admissibleB (initState a b) es = true) :
    noConflict (run (initState a b) (es.take n)) = true := by
  have h0 : noConflict (initState a b) = true := by
    cases a <;> cases b <;> decide
  exact noConflict_run_of_admissible (es.take n) (initState a b) h0
    (admissibleB_take n es (initState a b) h)

theorem noConflict_of_admissible_witness :
    admissibleB (initState false false)
      [.beforeInstallPrompt ⟨0, .accepted⟩, .showPrompt] = true ∧
    noConflict (run (initState false false)
      (([.beforeInstallPrompt ⟨0, .accepted⟩, .showPrompt] :
          List InstallEvent).take 2)) = true :=
  ⟨by decide,
   noConflict_of_admissible false false
     [.beforeInstallPrompt ⟨0, .accepted⟩, .showPrompt] 2 (by decide)⟩

/-- Claim C3: once a `showInstallPrompt()` call has settled, a later call with
no intervening `beforeinstallprompt` event — whatever other events settle in
between — returns `false` immediately, invokes `prompt()` on nothing, and
leaves the state untouched: the consumed (or absent) handle was nulled. -/
theorem second_prompt_unavailable (s : InstallState) (es : List InstallEvent)
    (h : ∀ dp, InstallEvent.beforeInstallPrompt dp ∉ es) :
    showInstallPrompt (run (showInstallPrompt s).state es)
      = { result := false
          state := run (showInstallPrompt s).state es
          promptedOn := none } :=
  showInstallPrompt_none _
    (deferredPrompt_none_run es _ (showInstallPrompt_state_deferredPrompt s) h)

theorem second_prompt_unavailable_witness :
    (∀ dp, InstallEvent.beforeInstallPrompt dp ∉ ([] : List InstallEvent)) ∧
    showInstallPrompt
        (run (showInstallPrompt ⟨false, true, some ⟨0, .accepted⟩⟩).state [])
      = { result := false
          state := run (showInstallPrompt ⟨false, true, some ⟨0, .accepted⟩⟩).state []
          promptedOn := none } :=
  ⟨fun _ => List.not_mem_nil _,
   second_prompt_unavailable ⟨false, true, some ⟨0, .accepted⟩⟩ []
     (fun _ => List.not_mem_nil _)⟩

/-- Claim C4: whenever `showInstallPrompt()` resolves accepted (returns
`true`), the state it returns with already has `isInstalled` true and
`canInstall` false — the update happens inside the call itself, not on the
later `appinstalled` event. -/
theorem accepted_sets_installed (s : InstallState)
    (h : (showInstallPrompt s).result = true) :
    (showInstallPrompt s).state.isInstalled = true ∧
    (showInstallPrompt s).state.canInstall = false := by
  obtain ⟨i, c, d⟩ := s
  cases d with
  | none => simp [showInstallPrompt] at h
  | some dp =>
      obtain ⟨n, ch⟩ := dp
      cases ch with
      | accepted => exact ⟨rfl, rfl⟩
      | dismissed => simp [showInstallPrompt] at h

theorem accepted_sets_installed_witness :
    (showInstallPrompt ⟨false, true, some ⟨0, .accepted⟩⟩).result = true ∧
    ((showInstallPrompt ⟨false, true, some ⟨0, .accepted⟩⟩).state.isInstalled = true ∧
     (showInstallPrompt ⟨false, true, some ⟨0, .accepted⟩⟩).state.canInstall = false) :=
  ⟨by decide, accepted_sets_installed ⟨false, true, some ⟨0, .accepted⟩⟩ (by decide)⟩

/-- Claim C5: when the held handle resolves dismissed, `showInstallPrompt()`
returns `false`, clears only `canInstall` and discards the consumed handle;
`isInstalled` keeps whatever value it had. -/
theorem dismissed_clears_only_canInstall :
    ∀ (i c : Bool) (n : Nat),
      showInstallPrompt ⟨i, c, some ⟨n, .dismissed⟩⟩
        = { result := false
            state := { isInstalled := i, canInstall := false, deferredPrompt := none }
            promptedOn := some ⟨n, .dismissed⟩ } :=
  fun _ _ _ => rfl

/-- Claim C6 as stated is false: `showInstallPrompt()` returns a boolean, not
a three-valued outcome — the call with no handle held returns the very same
value `false` as a call whose native dialog the user dismisses, so the
unavailable outcome is not distinguishable from the dismissed one by the
value the method resolves with. -/
theorem unavailable_equals_dismissed_result :
    (showInstallPrompt ⟨false, false, none⟩).result = false ∧
    (showInstallPrompt ⟨false, true, some ⟨0, .dismissed⟩⟩).result = false ∧
    (showInstallPrompt ⟨false, false, none⟩).result
      = (showInstallPrompt ⟨false, true, some ⟨0, .dismissed⟩⟩).result := by
  decide

/-- Claim C6 (amended): calling `showInstallPrompt()` while no offer handle is
held resolves immediately with `false` — the same boolean the dismissed
outcome yields, the source's result type being two-valued — without invoking
`prompt()`, without mutating any state, and without raising an exception. -/
theorem no_handle_returns_false (s : InstallState) (h : s.deferredPrompt = none) :
    showInstallPrompt s = { result := false, state := s, promptedOn := none } :=
  showInstallPrompt_none s h

theorem no_handle_returns_false_witness :
    (⟨false, false, none⟩ : InstallState).deferredPrompt = none ∧
    showInstallPrompt ⟨false, false, none⟩
      = { result := false
          state := ⟨false, false, none⟩
          promptedOn := none } :=
  ⟨rfl, no_handle_returns_false ⟨false, false, none⟩ rfl⟩

/-- Claim C7: whenever `requestPermission()` resolves false (permission
denied or defaulted, or the `Notification` API unsupported),
`subscribeToNotifications` performs no `swPush.requestSubscription` transport
call and returns with the service state — in particular the subscription
slot — unchanged. -/
theorem no_permission_no_subscribe (env : NotifEnv) (key : String) (st : NotifState)
    (h : requestPermission env = false) :
    ((subscribeToNotifications env key st).2.all fun e => !isSubscribeCall e) = true ∧
    (subscribeToNotifications env key st).1 = st := by
  by_cases he : env.swPushEnabled
  · simp [subscribeToNotifications, he, h, isSubscribeCall]
  · simp [subscribeToNotifications, he, isSubscribeCall]

theorem no_permission_no_subscribe_witness :
    requestPermission ⟨true, .denied, true, .ok ⟨"ep"⟩⟩ = false ∧
    (((subscribeToNotifications ⟨true, .denied, true, .ok ⟨"ep"⟩⟩ "key" ⟨none⟩).2.all
        fun e => !isSubscribeCall e) = true ∧
     (subscribeToNotifications ⟨true, .denied, true, .ok ⟨"ep"⟩⟩ "key" ⟨none⟩).1
        = ⟨none⟩) :=
  ⟨by decide,
   no_permission_no_subscribe ⟨true, .denied, true, .ok ⟨"ep"⟩⟩ "key" ⟨none⟩ (by decide)⟩

/-- Claim C8: after `dismiss()` writes the persisted flag, `showBanner`
evaluates to false in every later state — whatever lifecycle events run, so
even if `canInstall` becomes true again — and `dismiss()` is an idempotent
write of the flag to `'true'`. -/
theorem dismiss_hides_banner_forever (st : Store) (s : InstallState)
    (es : List InstallEvent) :
    showBanner (run s es) (dismiss st) = false ∧
    dismiss (dismiss st) = dismiss st :=
  ⟨by simp [showBanner, dismiss, getItem_setItem_self],
   setItem_idem st dismissedKey "true"⟩

/-- Claim C9 is false on the code: a `subscribeToNotifications` call that
succeeds emits the transport call and logs the returned handle, but the
service state keeps no subscription — the handle is a local that is dropped
when the call returns (backend delivery is a TODO comment in the source). -/
theorem success_does_not_store_handle :
    (subscribeToNotifications ⟨true, .granted, true, .ok ⟨"ep"⟩⟩ "key" ⟨none⟩).2
      = [.subscribeCall "key", .logSuccess ⟨"ep"⟩] ∧
    (subscribeToNotifications ⟨true, .granted, true, .ok ⟨"ep"⟩⟩ "key" ⟨none⟩).1.subscription
      = none := by
  decide

/-- Claim C9 (amended): when `subscribeToNotifications` succeeds it calls the
transport and logs the returned push-subscription handle, and returns with
the service state unchanged — it does not retain the handle. -/
theorem success_logs_state_unchanged (env : NotifEnv) (key : String)
    (st : NotifState) (sub : PushSub)
    (h1 : env.swPushEnabled = true) (h2 : requestPermission env = true)
    (h3 : env.subscriptionResult = .ok sub) :
    subscribeToNotifications env key st
      = (st, [.subscribeCall key, .logSuccess sub]) := by
  simp [subscribeToNotifications, h1, h2, h3]

theorem success_logs_state_unchanged_witness :
    (⟨true, .granted, true, .ok ⟨"ep"⟩⟩ : NotifEnv).swPushEnabled = true ∧
    requestPermission ⟨true, .granted, true, .ok ⟨"ep"⟩⟩ = true ∧
    (⟨true, .granted, true, .ok ⟨"ep"⟩⟩ : NotifEnv).subscriptionResult = .ok ⟨"ep"⟩ ∧
    subscribeToNotifications ⟨true, .granted, true, .ok ⟨"ep"⟩⟩ "key" ⟨none⟩
      = (⟨none⟩, [.subscribeCall "key", .logSuccess ⟨"ep"⟩]) :=
  ⟨rfl, by decide, rfl,
   success_logs_state_unchanged ⟨true, .granted, true, .ok ⟨"ep"⟩⟩ "key" ⟨none⟩
     ⟨"ep"⟩ rfl (by decide) rfl⟩

/-- Claim C10: `canInstall` is true exactly when a deferred handle is held —
the initial state satisfies this, every settled event preserves it, and
`prompt()` is only ever invoked on the handle the state actually holds. -/
theorem canInstall_iff_handle :
    (∀ a b : Bool, (initState a b).canInstall = (initState a b).deferredPrompt.isSome) ∧
    (∀ (s : InstallState) (e : InstallEvent),
      s.canInstall = s.deferredPrompt.isSome →
      (step s e).canInstall = (step s e).deferredPrompt.isSome) ∧
    (∀ (s : InstallState) (dp : DeferredPrompt),
      (showInstallPrompt s).promptedOn = some dp → s.deferredPrompt = some dp) := by
  refine ⟨by decide, ?_, ?_⟩
  · intro s e hinv
    obtain ⟨i, c, d⟩ := s
    cases e with
    | beforeInstallPrompt dp => rfl
    | appInstalled => rfl
    | showPrompt =>
        cases d with
        | none => exact hinv
        | some dp =>
            obtain ⟨n, ch⟩ := dp
            cases ch <;> rfl
  · intro s dp h
    obtain ⟨i, c, d⟩ := s
    cases d with
    | none => exact Option.noConfusion h
    | some dp2 =>
        obtain ⟨n, ch⟩ := dp2
        cases ch <;> exact h

theorem canInstall_iff_handle_witness :
    ((⟨true, true, some ⟨0, .accepted⟩⟩ : InstallState).canInstall
        = (⟨true, true, some ⟨0, .accepted⟩⟩ : InstallState).deferredPrompt.isSome) ∧
    ((step ⟨true, true, some ⟨0, .accepted⟩⟩ .appInstalled).canInstall
        = (step ⟨true, true, some ⟨0, .accepted⟩⟩ .appInstalled).deferredPrompt.isSome) :=
  ⟨by decide,
   canInstall_iff_handle.2.1 ⟨true, true, some ⟨0, .accepted⟩⟩ .appInstalled (by decide)⟩

end GrowUp
